import Mathlib

/-!
Shallow embedding of the reading-session core of click-translate-reader:
the bundled dictionary and `translateWord` from `src/utils/dictionaryLoader.ts`,
the dictionary TTL cache from the unnamed `loadDictionary` module,
the tooltip consumer, progress updating, relocation handling, position storage
and book removal from `src/components/EpubReader.tsx` and the library component.
-/

namespace ClickTranslateReader

/-- Dictionary payloads, `export type Dictionary = Record<string, string>` in the
source, embedded as an association list of key/value pairs. -/
abbrev Dictionary := List (String × String)

/-- The bundled common-words dictionary of `src/utils/dictionaryLoader.ts`
(lines 7-204), entry for entry.  Note the key "I" is the only
uppercase key in the source. -/
def commonWordsDictionary : Dictionary := [
  ("the", "o/a"),
  ("to", "para"),
  ("and", "e"),
  ("a", "um/uma"),
  ("in", "em"),
  ("is", "é"),
  ("it", "isto"),
  ("you", "você"),
  ("that", "aquele/aquela"),
  ("he", "ele"),
  ("was", "era/foi"),
  ("for", "para"),
  ("on", "em/sobre"),
  ("are", "são/estão"),
  ("with", "com"),
  ("as", "como"),
  ("I", "eu"),
  ("his", "dele"),
  ("they", "eles/elas"),
  ("be", "ser/estar"),
  ("at", "em/a"),
  ("one", "um"),
  ("have", "ter"),
  ("this", "isto/este"),
  ("from", "de"),
  ("by", "por"),
  ("hot", "quente"),
  ("word", "palavra"),
  ("but", "mas"),
  ("what", "o que"),
  ("some", "alguns"),
  ("can", "poder"),
  ("out", "fora"),
  ("other", "outro"),
  ("were", "eram/estavam"),
  ("all", "todos"),
  ("there", "lá"),
  ("when", "quando"),
  ("up", "para cima"),
  ("use", "usar"),
  ("your", "seu/sua"),
  ("how", "como"),
  ("said", "disse"),
  ("an", "um/uma"),
  ("each", "cada"),
  ("she", "ela"),
  ("which", "qual"),
  ("do", "fazer"),
  ("their", "deles/delas"),
  ("time", "tempo"),
  ("if", "se"),
  ("will", "irá"),
  ("way", "caminho"),
  ("about", "sobre"),
  ("many", "muitos"),
  ("then", "então"),
  ("them", "eles/elas"),
  ("write", "escrever"),
  ("would", "iria"),
  ("like", "como/gostar"),
  ("so", "então/tão"),
  ("these", "estes/estas"),
  ("her", "dela"),
  ("long", "longo"),
  ("make", "fazer"),
  ("thing", "coisa"),
  ("see", "ver"),
  ("him", "ele"),
  ("two", "dois"),
  ("has", "tem"),
  ("look", "olhar"),
  ("more", "mais"),
  ("day", "dia"),
  ("could", "poderia"),
  ("go", "ir"),
  ("come", "vir"),
  ("did", "fez"),
  ("number", "número"),
  ("sound", "som"),
  ("no", "não"),
  ("most", "maioria"),
  ("people", "pessoas"),
  ("my", "meu/minha"),
  ("over", "sobre"),
  ("know", "saber"),
  ("water", "água"),
  ("than", "do que"),
  ("call", "chamar"),
  ("first", "primeiro"),
  ("who", "quem"),
  ("may", "pode"),
  ("down", "para baixo"),
  ("side", "lado"),
  ("been", "sido"),
  ("now", "agora"),
  ("find", "encontrar"),
  ("any", "qualquer"),
  ("new", "novo"),
  ("work", "trabalho"),
  ("part", "parte"),
  ("take", "pegar"),
  ("get", "obter"),
  ("place", "lugar"),
  ("made", "feito"),
  ("live", "viver"),
  ("where", "onde"),
  ("after", "depois"),
  ("back", "voltar"),
  ("little", "pouco"),
  ("only", "apenas"),
  ("round", "redondo"),
  ("man", "homem"),
  ("year", "ano"),
  ("came", "veio"),
  ("show", "mostrar"),
  ("every", "cada"),
  ("good", "bom"),
  ("me", "me/mim"),
  ("give", "dar"),
  ("our", "nosso"),
  ("under", "sob"),
  ("name", "nome"),
  ("very", "muito"),
  ("through", "através"),
  ("just", "apenas"),
  ("form", "forma"),
  ("sentence", "frase"),
  ("great", "grande"),
  ("think", "pensar"),
  ("say", "dizer"),
  ("help", "ajuda"),
  ("low", "baixo"),
  ("line", "linha"),
  ("differ", "diferir"),
  ("turn", "virar"),
  ("cause", "causa"),
  ("much", "muito"),
  ("mean", "significar"),
  ("before", "antes"),
  ("move", "mover"),
  ("right", "direito"),
  ("boy", "menino"),
  ("old", "velho"),
  ("too", "também"),
  ("same", "mesmo"),
  ("tell", "contar"),
  ("does", "faz"),
  ("set", "conjunto"),
  ("three", "três"),
  ("want", "querer"),
  ("air", "ar"),
  ("well", "bem"),
  ("also", "também"),
  ("play", "jogar"),
  ("small", "pequeno"),
  ("end", "fim"),
  ("put", "colocar"),
  ("home", "casa"),
  ("read", "ler"),
  ("hand", "mão"),
  ("port", "porto"),
  ("large", "grande"),
  ("spell", "soletrar"),
  ("add", "adicionar"),
  ("even", "mesmo"),
  ("land", "terra"),
  ("here", "aqui"),
  ("must", "deve"),
  ("big", "grande"),
  ("high", "alto"),
  ("such", "tal"),
  ("follow", "seguir"),
  ("act", "agir"),
  ("why", "por que"),
  ("ask", "perguntar"),
  ("men", "homens"),
  ("change", "mudar"),
  ("went", "foi"),
  ("light", "luz"),
  ("kind", "tipo"),
  ("off", "desligado"),
  ("need", "precisar"),
  ("house", "casa"),
  ("picture", "foto"),
  ("try", "tentar"),
  ("us", "nós"),
  ("again", "novamente"),
  ("animal", "animal"),
  ("point", "ponto"),
  ("mother", "mãe"),
  ("world", "mundo"),
  ("near", "perto"),
  ("build", "construir"),
  ("self", "auto"),
  ("earth", "terra"),
  ("father", "pai")]

/-- Characters removed by the `replace` regex in `cleanWord`
(`src/utils/dictionaryLoader.ts` line 208): the fixed punctuation set
period, comma, slash, hash, bang, dollar, percent, caret, ampersand, star,
semicolon, colon, both braces, equals, hyphen, underscore, backquote, tilde
and both parentheses. -/
def strippedPunctuation : List Char :=
  ['.', ',', '/', '#', '!', '$', '%', '^', '&', '*', ';', ':',
   Char.ofNat 123, Char.ofNat 125, '=', '-', '_', Char.ofNat 96, '~', '(', ')']

/-- Decide whether a character belongs to the stripped punctuation set. -/
def isStrippedPunct (c : Char) : Bool :=
  strippedPunctuation.contains c

/-- JS `String.prototype.toLowerCase` restricted to the ASCII range, which is
all the source ever feeds it (dictionary keys and English words). -/
def jsToLower (s : String) : String :=
  ⟨s.data.map Char.toLower⟩

/-- Key normalization `cleanWord` from `src/utils/dictionaryLoader.ts`
lines 207-209: lowercase, then strip the fixed punctuation set. -/
def cleanWord (w : String) : String :=
  ⟨(jsToLower w).data.filter (fun c => !isStrippedPunct c)⟩

/-- JS object property read `commonWordsDictionary[w]`. -/
def dictLookup (w : String) : Option String :=
  (commonWordsDictionary.find? (fun p => p.1 == w)).map Prod.snd

/-- Abstract remote translation provider (the `translate` collaborator):
`some t` means the remote call resolves with translation `t`, `none` means the
call throws (network failure, rate limiting, malformed response). -/
abbrev RemoteProvider := String → Option String

/-- The remote fallback path of `translateWord` (lines 236-247 of
`src/utils/dictionaryLoader.ts`): exactly one remote call is issued on the raw
word; a provider error is caught and resolved as the sentinel string.  The
second component counts the remote calls issued. -/
def remoteFallback (remote : RemoteProvider) (word : String) : String × Nat :=
  match remote word with
  | some t => (t, 1)
  | none => ("Translation not available", 1)

/-- It does not matter whether the provider succeeds or throws: the fallback
path issues exactly one remote call. -/
theorem remoteFallback_snd (remote : RemoteProvider) (word : String) :
    (remoteFallback remote word).2 = 1 := by
  unfold remoteFallback
  cases remote word <;> rfl

/-- Lookup `translateWord` from `src/utils/dictionaryLoader.ts` lines 229-248,
paired with the number of remote calls it issues.  The source lowercases the
word, serves the bundled entry when the JS truthiness test
`if (commonWordsDictionary[lowerWord])` passes (present and nonempty), and
otherwise calls the remote provider on the raw word.  The function is total
because the source wraps the remote call in try/catch: it always resolves
with a string. -/
def translateWordCount (remote : RemoteProvider) (word : String) : String × Nat :=
  match dictLookup (jsToLower word) with
  | some v => if v.isEmpty then remoteFallback remote word else (v, 0)
  | none => remoteFallback remote word

/-- The resolved value of one `translateWord` call. -/
def translateWord (remote : RemoteProvider) (word : String) : String :=
  (translateWordCount remote word).1

/-- Whether the JS truthiness test `commonWordsDictionary[w]` succeeds. -/
def dictHit (w : String) : Bool :=
  match dictLookup w with
  | some v => !v.isEmpty
  | none => false

/-- A single lookup issues no remote call exactly on a bundled-dictionary hit,
and one remote call otherwise. -/
theorem translateWordCount_remoteCalls (remote : RemoteProvider) (word : String) :
    (translateWordCount remote word).2 =
      if dictHit (jsToLower word) then 0 else 1 := by
  unfold translateWordCount dictHit
  cases h : dictLookup (jsToLower word) with
  | none => simp [remoteFallback_snd]
  | some v =>
    by_cases hv : v.isEmpty <;> simp [hv, remoteFallback_snd]

/-- Source `translateWord` keeps no shared in-flight state whatsoever (there is
no in-flight map in `src/utils/dictionaryLoader.ts`), so two overlapping
lookups issue their remote calls independently and the total number issued is
the sum of the two counts. -/
def concurrentRemoteCalls (remote : RemoteProvider) (w1 w2 : String) : Nat :=
  (translateWordCount remote w1).2 + (translateWordCount remote w2).2


/-! Claim C1: in-flight deduplication of concurrent lookups. -/

/-- Claim C1 counterexample: the words "Running." and "running" normalize to
the same key, yet two overlapping lookups (the second started before the first
resolves) issue two remote provider calls, not at most one: the source has no
in-flight map, so nothing coalesces them. -/
theorem C1_dedup_counterexample :
    cleanWord "Running." = cleanWord "running" ∧
    1 < concurrentRemoteCalls (fun _ => some "correndo") "Running." "running" := by
  decide

/-- Claim C1 (amended): there is no in-flight deduplication.  For any two
lookups of words normalizing to the same key, each lookup issues its own
remote call whenever its lowercased word misses the bundled dictionary, so the
total is the sum of the two independent counts (two remote calls when both
words miss the bundled dictionary), not at most one. -/
theorem C1_no_inflight_dedup (remote : RemoteProvider) (w1 w2 : String)
    (h : cleanWord w1 = cleanWord w2) :
    concurrentRemoteCalls remote w1 w2 =
      (if dictHit (jsToLower w1) then 0 else 1) +
      (if dictHit (jsToLower w2) then 0 else 1) := by
  unfold concurrentRemoteCalls
  rw [translateWordCount_remoteCalls, translateWordCount_remoteCalls]

/-- Witness for the amended claim C1 at the concrete pair "cat!" and "cat":
both normalize to "cat", both miss the bundled dictionary, and the two
overlapping lookups issue two remote calls. -/
theorem C1_no_inflight_dedup_witness :
    cleanWord "cat!" = cleanWord "cat" ∧
    concurrentRemoteCalls (fun _ => some "gato") "cat!" "cat" = 2 := by
  refine ⟨by decide, ?_⟩
  rw [C1_no_inflight_dedup (fun _ => some "gato") "cat!" "cat" (by decide)]
  decide

/-! Claim C2: lookup congruence with respect to `cleanWord` normalization. -/

/-- Claim C2 counterexample: "the" and "the." normalize to the same key
"the", yet the lookups resolve to different values: "the" hits the bundled
dictionary (value "o/a") while "the." is sent raw to the remote provider,
whose answer (here "X") is returned as is. -/
theorem C2_congruence_counterexample :
    cleanWord "the" = cleanWord "the." ∧
    translateWord (fun _ => some "X") "the" ≠ translateWord (fun _ => some "X") "the." := by
  decide

/-- Claim C2 (amended): lookup is a congruence only with respect to
lowercasing on bundled-dictionary hits: two raw words that lowercase
identically and whose lowercased form passes the bundled-dictionary truthiness
test resolve to the same value.  Words that merely share a `cleanWord` key may
resolve differently, because the raw word is passed to the remote provider. -/
theorem C2_lowercase_dictionary_congruence (remote : RemoteProvider) (w1 w2 : String)
    (h : jsToLower w1 = jsToLower w2) (hd : dictHit (jsToLower w1) = true) :
    translateWord remote w1 = translateWord remote w2 := by
  unfold dictHit at hd
  unfold translateWord translateWordCount
  rw [← h]
  cases hl : dictLookup (jsToLower w1) with
  | none => rw [hl] at hd; simp at hd
  | some v =>
    rw [hl] at hd
    simp only [Bool.not_eq_true'] at hd
    simp [hd]

/-- Witness for the amended claim C2 at the concrete pair "The" and "the":
both lowercase to the bundled key "the" and resolve to the same value. -/
theorem C2_lowercase_dictionary_congruence_witness :
    jsToLower "The" = jsToLower "the" ∧
    dictHit (jsToLower "The") = true ∧
    translateWord (fun _ => none) "The" = translateWord (fun _ => none) "the" :=
  ⟨by decide, by decide,
    C2_lowercase_dictionary_congruence (fun _ => none) "The" "the" (by decide) (by decide)⟩

/-! Claim C10: totality of `translateWord` and its fallback taxonomy. -/

/-- Claim C10 counterexample: the word "I" is in the bundled dictionary with
translation "eu", but the lookup lowercases the word before indexing and the
dictionary keys it uppercase, so `translateWord` does not return the bundled
translation for it: with the provider throwing, it resolves to the caught
error sentinel instead. -/
theorem C10_dictionary_hit_counterexample :
    dictLookup "I" = some "eu" ∧
    translateWord (fun _ => none) "I" ≠ "eu" ∧
    translateWord (fun _ => none) "I" = "Translation not available" := by
  decide

/-- Claim C10 (amended): `translateWord` always resolves with a string (the
embedding is a total function, mirroring the try/catch in the source).  When
the LOWERCASED word is a bundled-dictionary key with a nonempty value, that
bundled translation is returned with no remote call consulted; the entry keyed
"I" is unreachable because lookups lowercase first.  When the bundled
truthiness test fails and the remote provider throws, the error is caught and
the lookup resolves to the sentinel "Translation not available". -/
theorem C10_translate_total_fallback (remote : RemoteProvider) (word : String) :
    (∀ v, dictLookup (jsToLower word) = some v → v.isEmpty = false →
        translateWord remote word = v) ∧
    (dictHit (jsToLower word) = false → remote word = none →
        translateWord remote word = "Translation not available") := by
  constructor
  · intro v hv hne
    unfold translateWord translateWordCount
    rw [hv]
    simp [hne]
  · intro hmiss herr
    unfold dictHit at hmiss
    unfold translateWord translateWordCount
    cases hl : dictLookup (jsToLower word) with
    | none =>
      unfold remoteFallback
      rw [herr]
    | some v =>
      rw [hl] at hmiss
      simp only [Bool.not_eq_false'] at hmiss
      simp only [hmiss, if_true]
      unfold remoteFallback
      rw [herr]

/-- Witness for the amended claim C10: "the" (lowercased hit) returns the
bundled "o/a" with the provider throwing, and "xylophone" (miss, provider
throwing) resolves to the sentinel. -/
theorem C10_translate_total_fallback_witness :
    translateWord (fun _ => none) "the" = "o/a" ∧
    translateWord (fun _ => none) "xylophone" = "Translation not available" :=
  ⟨(C10_translate_total_fallback (fun _ => none) "the").1 "o/a" (by decide) (by decide),
   (C10_translate_total_fallback (fun _ => none) "xylophone").2 (by decide) rfl⟩


/-! Consumer model: the tooltip state of `EpubReader.tsx` and its
`handleWordSelection` handler (the async variant, lines 609-641; the
promise-chained variant at lines 192-231 applies results identically). -/

/-- React state of the tooltip consumer in `EpubReader.tsx`: `selectedWord`,
`translation`, `isTranslating` and `showTooltip`. -/
structure TooltipState where
  selectedWord : String
  translation : String
  isTranslating : Bool
  showTooltip : Bool
deriving DecidableEq, Repr

/-- Initial React state: all `useState` defaults from `EpubReader.tsx`. -/
def initTooltipState : TooltipState :=
  { selectedWord := "", translation := "", isTranslating := false, showTooltip := false }

/-- Synchronous prefix of `handleWordSelection` (lines 609-629), up to the
`await translateWord(word)` suspension point: toggle off when the same word is
clicked while the tooltip shows, otherwise select the word, open the tooltip
and enter the loading state.  In this variant the identity key is the raw
word. -/
def selectStep (word : String) (s : TooltipState) : TooltipState :=
  if word == s.selectedWord && s.showTooltip then
    { s with showTooltip := false, selectedWord := "" }
  else
    { s with selectedWord := word, showTooltip := true,
             isTranslating := true, translation := "Translating..." }

/-- Continuation of `handleWordSelection` after the await (lines 631-640):
when a pending `translateWord` promise resolves with `result`, the handler
unconditionally stores it with `setTranslation(result)` and clears the loading
flag in the `finally` block.  No generation number or word identity is
checked before applying the result. -/
def resolveStep (result : String) (s : TooltipState) : TooltipState :=
  { s with translation := result, isTranslating := false }

/-! Claim C4: generation-based supersession of stale lookup resolutions. -/

/-- Claim C4 counterexample: select "cat" (its lookup starts), then select
"dog" before the first lookup resolves, then the OLDER lookup resolves with
"gato".  The consumer applies it: the tooltip now displays the word "dog"
with the stale translation "gato" of the superseded lookup, so the older
generation is not discarded. -/
theorem C4_supersession_counterexample :
    (resolveStep "gato" (selectStep "dog" (selectStep "cat" initTooltipState))).selectedWord
      = "dog" ∧
    (resolveStep "gato" (selectStep "dog" (selectStep "cat" initTooltipState))).translation
      = "gato" ∧
    (resolveStep "gato" (selectStep "dog" (selectStep "cat" initTooltipState))).showTooltip
      = true := by
  decide

/-- Claim C4 (amended): the consumer tracks no generations at all.  Every
lookup resolution that arrives is applied unconditionally, in arrival order:
it overwrites the displayed translation and clears the loading flag while
leaving the selected word untouched, so the translation shown is that of
whichever resolution arrived last, whether or not it corresponds to the
currently displayed word. -/
theorem C4_last_resolution_wins (result : String) (s : TooltipState) :
    (resolveStep result s).translation = result ∧
    (resolveStep result s).isTranslating = false ∧
    (resolveStep result s).selectedWord = s.selectedWord ∧
    (resolveStep result s).showTooltip = s.showTooltip :=
  ⟨rfl, rfl, rfl, rfl⟩


/-! Library storage model: the `books` object store of the `epubLibraryDB`
IndexedDB database, used by `updateReadingProgress`, the relocated handler
and `removeBook`. -/

/-- Fields of a stored book record touched by `updateReadingProgress`
(`src/components/EpubReader.tsx` lines 234-258): its key `id`, the stored
`progress` percent and the `lastOpened` timestamp. -/
structure BookRecord where
  id : String
  progress : Int
  lastOpened : Nat
deriving DecidableEq, Repr

/-- The `books` object store, keyed by book id (IndexedDB `keyPath: id`). -/
abbrev Library := String → Option BookRecord

/-- A library holding exactly one record, under its own id. -/
def singletonLib (b : BookRecord) : Library :=
  fun k => if k = b.id then some b else none

/-- Function `updateReadingProgress` from `src/components/EpubReader.tsx`
lines 234-258: read the record for `bookId`; when present, assign
`bookData.progress = progress` (the value as passed, the source performs no
clamping) and `bookData.lastOpened = new Date()`, then `put` it back; when the
record is absent nothing is written. -/
def updateReadingProgress (bookId : String) (progress : Int) (now : Nat)
    (lib : Library) : Library :=
  fun k =>
    if k = bookId then
      match lib bookId with
      | some b => some { b with progress := progress, lastOpened := now }
      | none => none
    else lib k

/-! Claim C5: clamping of the stored progress percent to the range 0-100. -/

/-- Claim C5 counterexample: updating the progress of a stored book to 150
persists 150, not the clamp 100: `updateReadingProgress` assigns the passed
value directly with no clamping. -/
theorem C5_clamp_counterexample :
    updateReadingProgress "book-1" 150 5
        (singletonLib { id := "book-1", progress := 10, lastOpened := 0 }) "book-1"
      = some { id := "book-1", progress := 150, lastOpened := 5 } ∧
    (150 : Int) ≠ 100 := by
  decide

/-- Claim C5 (amended): `updateReadingProgress` persists the given percent
exactly as passed, with no clamping into the range 0-100 (so 150 stores 150
and -5 stores -5), and also refreshes the record timestamp `lastOpened`. -/
theorem C5_progress_stored_unclamped (bookId : String) (p : Int) (now : Nat)
    (lib : Library) (b : BookRecord) (h : lib bookId = some b) :
    updateReadingProgress bookId p now lib bookId
      = some { b with progress := p, lastOpened := now } := by
  unfold updateReadingProgress
  rw [if_pos rfl, h]

/-- Witness for the amended claim C5: storing -5 for a present record
persists exactly -5. -/
theorem C5_progress_stored_unclamped_witness :
    singletonLib { id := "book-1", progress := 10, lastOpened := 0 } "book-1"
      = some { id := "book-1", progress := 10, lastOpened := 0 } ∧
    updateReadingProgress "book-1" (-5) 5
        (singletonLib { id := "book-1", progress := 10, lastOpened := 0 }) "book-1"
      = some { id := "book-1", progress := -5, lastOpened := 5 } :=
  ⟨by decide,
    C5_progress_stored_unclamped "book-1" (-5) 5
      (singletonLib { id := "book-1", progress := 10, lastOpened := 0 })
      { id := "book-1", progress := 10, lastOpened := 0 } (by decide)⟩

/-! Relocation model: the localStorage position store and the `relocated`
handler of `src/components/EpubReader.tsx`. -/

/-- The browser localStorage, a string-keyed string store. -/
abbrev Store := String → Option String

/-- JS `localStorage.setItem`. -/
def setItem (key value : String) (s : Store) : Store :=
  fun q => if q = key then some value else s q

/-- JS `localStorage.getItem`. -/
def getItem (key : String) (s : Store) : Option String :=
  s key

/-- Combined persistent state seen by the relocated handler: the localStorage
position entries and the IndexedDB book library. -/
structure ReaderState where
  positions : Store
  lib : Library

/-- The `relocated` event handler of `src/components/EpubReader.tsx` lines
1161-1174: the whole body is guarded by the availability test
`if (book.locations && book.locations.percentageFromCfi)`.  When the
percentage function is available it computes
`Math.floor(percentageFromCfi(cfi) * 100)`, saves the locator under the
localStorage key `book-position-` followed by the book id, and persists the
percent via `updateReadingProgress`; when it is unavailable the handler does
nothing at all, so the locator is not saved either.  (The unguarded variant at
lines 160-168 computes the same floor expression but lets a throwing
percentage function propagate, likewise skipping the save.) -/
def relocatedHandler (bookId : String) (now : Nat)
    (percentageFromCfi : Option (String → ℚ)) (cfi : String)
    (st : ReaderState) : ReaderState :=
  match percentageFromCfi with
  | some f =>
      { positions := setItem ("book-position-" ++ bookId) cfi st.positions,
        lib := updateReadingProgress bookId (Int.floor (f cfi * 100)) now st.lib }
  | none => st

/-! Claim C6: progress-computation failure never blocks position saving. -/

/-- Claim C6 counterexample: with the percentage function unavailable, a
relocation to a fresh locator leaves the saved position untouched: the
position save sits inside the same guarded block as the progress computation,
so it is skipped too, contrary to the claim that the locator is still saved. -/
theorem C6_position_save_counterexample :
    (relocatedHandler "book-1" 5 none "epubcfi(/6/4!/4/2)"
        { positions := fun _ => none,
          lib := singletonLib { id := "book-1", progress := 10, lastOpened := 0 } }).positions
      ("book-position-" ++ "book-1") ≠ some "epubcfi(/6/4!/4/2)" := by
  decide

/-- Claim C6 (amended): when the percentage function is unavailable the
relocated handler is a complete no-op: it does not raise (the embedding is
total) and the previously stored progress is retained unchanged, but the
locator is NOT saved either, because the position save is inside the
availability guard. -/
theorem C6_unavailable_percentage_noop (bookId : String) (now : Nat)
    (cfi : String) (st : ReaderState) :
    relocatedHandler bookId now none cfi st = st :=
  rfl


/-! Claim C7: progress is the floor of the engine percentage times 100. -/

/-- Claim C7: for every locator, when the percentage function is available the
relocated handler stores progress `Int.floor (percentage * 100)` for the book
(refreshing `lastOpened`), and in particular a percentage of 0.42 stores
exactly 42. -/
theorem C7_progress_floor_percentage (bookId : String) (now : Nat)
    (f : String → ℚ) (cfi : String) (st : ReaderState) (b : BookRecord)
    (h : st.lib bookId = some b) :
    ((relocatedHandler bookId now (some f) cfi st).lib bookId
        = some { b with progress := Int.floor (f cfi * 100), lastOpened := now }) ∧
    (f cfi = 42 / 100 →
      (relocatedHandler bookId now (some f) cfi st).lib bookId
        = some { b with progress := 42, lastOpened := now }) := by
  have hmain : (relocatedHandler bookId now (some f) cfi st).lib bookId
      = some { b with progress := Int.floor (f cfi * 100), lastOpened := now } := by
    show updateReadingProgress bookId (Int.floor (f cfi * 100)) now st.lib bookId = _
    exact C5_progress_stored_unclamped bookId (Int.floor (f cfi * 100)) now st.lib b h
  refine ⟨hmain, fun h42 => ?_⟩
  rw [hmain, h42]
  norm_num

/-- Witness for claim C7: a concrete relocation whose percentage function
returns 0.42 stores the progress 42. -/
theorem C7_progress_floor_percentage_witness :
    (relocatedHandler "book-1" 5 (some fun _ => 42 / 100) "epubcfi(/6/2)"
        { positions := fun _ => none,
          lib := singletonLib { id := "book-1", progress := 0, lastOpened := 0 } }).lib "book-1"
      = some { id := "book-1", progress := 42, lastOpened := 5 } :=
  (C7_progress_floor_percentage "book-1" 5 (fun _ => 42 / 100) "epubcfi(/6/2)"
      { positions := fun _ => none,
        lib := singletonLib { id := "book-1", progress := 0, lastOpened := 0 } }
      { id := "book-1", progress := 0, lastOpened := 0 } (by decide)).2 rfl

/-! Claim C8: position round-trip through localStorage. -/

/-- The localStorage key under which `EpubReader.tsx` (second variant) keeps
the reading position of a book: `epub-cfi-` followed by the book id, used by
both `saveCurrentLocation` (line 600) and the resume read in `loadBook`
(line 433). -/
def epubCfiKey (bookId : String) : String :=
  "epub-cfi-" ++ bookId

/-- The persistence core of `saveCurrentLocation`
(`src/components/EpubReader.tsx` lines 594-606):
`localStorage.setItem(epub-cfi-<id>, cfi)`. -/
def saveCurrentLocation (bookId cfi : String) (s : Store) : Store :=
  setItem (epubCfiKey bookId) cfi s

/-- The resume read in `loadBook` (lines 432-436):
`localStorage.getItem(epub-cfi-<id>)`. -/
def loadSavedCfi (bookId : String) (s : Store) : Option String :=
  getItem (epubCfiKey bookId) s

/-- Claim C8: position round-trip.  For every document id and locator, loading
the saved position immediately after saving that locator returns exactly the
locator: both operations address the same localStorage key. -/
theorem C8_position_roundtrip (bookId cfi : String) (s : Store) :
    loadSavedCfi bookId (saveCurrentLocation bookId cfi s) = some cfi := by
  simp [loadSavedCfi, saveCurrentLocation, getItem, setItem]

/-! Claim C9: removal is idempotent and a silent no-op on a missing id. -/

/-- Function `removeBook` from the library component (lines 381-404): an
IndexedDB `store.delete(bookId)`.  Its effect on the store is the erasure of
the key. -/
def removeBook (bookId : String) (lib : Library) : Library :=
  fun k => if k = bookId then none else lib k

/-- Promise outcome of `removeBook`: IndexedDB delete requests fire
`onsuccess` whether or not the key is present, so with storage healthy the
promise always resolves (it rejects only on open or I/O failure, modelled
out of band). -/
def removeBookResult (bookId : String) (lib : Library) : Except String Library :=
  Except.ok (removeBook bookId lib)

/-- Claim C9: removal completes successfully, is idempotent, and is a no-op
(not an error) when the id is absent from the library. -/
theorem C9_remove_idempotent_silent (bookId : String) (lib : Library) :
    (removeBookResult bookId lib).isOk = true ∧
    removeBook bookId (removeBook bookId lib) = removeBook bookId lib ∧
    (lib bookId = none → removeBook bookId lib = lib) := by
  refine ⟨rfl, ?_, ?_⟩
  · funext k
    unfold removeBook
    by_cases hk : k = bookId <;> simp [hk]
  · intro habs
    funext k
    unfold removeBook
    by_cases hk : k = bookId <;> simp [hk, habs]

/-- Witness for claim C9: removing an id from an empty library succeeds as a
no-op. -/
theorem C9_remove_idempotent_silent_witness :
    removeBook "ghost" (fun _ => none) = (fun _ => none : Library) :=
  (C9_remove_idempotent_silent "ghost" (fun _ => none)).2.2 rfl


/-! Dictionary TTL cache: `loadDictionary` of the unnamed dictionary-loader
module (`src/unnamed/part_004` lines 8-52), which caches the whole dictionary
blob in localStorage under one timestamp. -/

/-- The parsed localStorage payload cached under the key
`offline-dictionary`: a fetch timestamp and the dictionary data. -/
structure CachedDictionary where
  timestamp : Nat
  data : Dictionary
deriving DecidableEq, Repr

/-- Constant `CACHE_EXPIRY`: seven days in milliseconds. -/
def CACHE_EXPIRY : Nat := 7 * 24 * 60 * 60 * 1000

/-- Outcome of one `loadDictionary` call: the dictionary returned to the
caller, whether a fresh network fetch was attempted, and the cache payload
written back (when a fetch succeeded). -/
structure LoadResult where
  dict : Dictionary
  fetchAttempted : Bool
  newCache : Option CachedDictionary
deriving DecidableEq, Repr

/-- The fall-through fetch path of `loadDictionary` (lines 26-50): attempt the
network fetch; on success return the data and write it back to the cache with
the current timestamp, on any failure (caught) return the empty dictionary. -/
def fetchDictionary (now : Nat) (fetchResult : Option Dictionary) : LoadResult :=
  match fetchResult with
  | some d => { dict := d, fetchAttempted := true, newCache := some { timestamp := now, data := d } }
  | none => { dict := [], fetchAttempted := true, newCache := none }

/-- Function `loadDictionary` (lines 11-52): when a cached payload exists and
`Date.now() - timestamp < CACHE_EXPIRY` holds, the cached data is returned
with no fetch; otherwise the fetch path runs.  (JS computes the age with
signed subtraction while `Nat` truncates at zero, but both sides of the
comparison behave identically for every `now` and `timestamp`, since a
negative JS age and a truncated zero age are each below the positive
expiry.) -/
def loadDictionary (cachedData : Option CachedDictionary) (now : Nat)
    (fetchResult : Option Dictionary) : LoadResult :=
  match cachedData with
  | some c =>
      if now - c.timestamp < CACHE_EXPIRY then
        { dict := c.data, fetchAttempted := false, newCache := none }
      else
        fetchDictionary now fetchResult
  | none => fetchDictionary now fetchResult

/-! Claim C3: entries older than the seven-day TTL are refreshed, not served. -/

/-- Claim C3: for every cached payload strictly older than the seven-day TTL
at lookup time, `loadDictionary` never returns the stale data directly: it
attempts a fresh fetch and behaves exactly as if the cache entry were absent. -/
theorem C3_ttl_expired_refetch (c : CachedDictionary) (now : Nat)
    (fetchResult : Option Dictionary) (h : c.timestamp + CACHE_EXPIRY < now) :
    (loadDictionary (some c) now fetchResult).fetchAttempted = true ∧
    loadDictionary (some c) now fetchResult = loadDictionary none now fetchResult := by
  have hage : ¬ (now - c.timestamp < CACHE_EXPIRY) := by omega
  have hbranch : loadDictionary (some c) now fetchResult
      = fetchDictionary now fetchResult := by
    unfold loadDictionary
    dsimp only
    rw [if_neg hage]
  refine ⟨?_, hbranch⟩
  rw [hbranch]
  unfold fetchDictionary
  cases fetchResult <;> rfl

/-- Witness for claim C3: the scenario from the specification, a payload
fetched eight days ago (`fetchedAt = now - 8 days`): the stale dictionary is
not served and a fresh fetch is attempted. -/
theorem C3_ttl_expired_refetch_witness :
    (0 : Nat) + CACHE_EXPIRY < 691200000 ∧
    (loadDictionary (some { timestamp := 0, data := [("cat", "gato")] })
        691200000 (some [])).fetchAttempted = true :=
  ⟨by decide,
    (C3_ttl_expired_refetch { timestamp := 0, data := [("cat", "gato")] }
      691200000 (some []) (by decide)).1⟩

end ClickTranslateReader
